import Mathlib

/-!
Verification of the request-relay core of the `open-webui-mcp-connector`
repository (`src/mcp_pipe.py`, `src/mcp_connector/utils/mcp_client.py`).

The Python relay is embedded shallowly:
* JSON documents become the inductive `Json`.
* The network is an explicit function `World` from (URL, payload) to either a
  transport exception or an HTTP response; each URL is queried at most once
  per pass, so a pass over the candidate list is a pure fold over that list.
* `json.loads` on streaming lines is threaded as an explicit parameter
  `parse : String → Option Json` (a parse failure is `none`), matching the
  `try: json.loads(line) ... except: continue` structure of the source.
* Python string methods are mirrored by executable char-list functions
  (`pyStrip`, `pyRstripSlash`, `pyStartsWith`, ...), so every definition
  evaluates by kernel reduction.
-/

namespace McpPipe

/-- JSON values, as produced by Python's `json.loads`. -/
inductive Json where
  | null
  | bool (b : Bool)
  | num (n : Int)
  | str (s : String)
  | arr (elems : List Json)
  | obj (fields : List (String × Json))

/-- Dictionary lookup on a JSON object's field list (Python `d[k]` / `k in d`). -/
def lookupField : List (String × Json) → String → Option Json
  | [], _ => none
  | (k, v) :: rest, key => if k == key then some v else lookupField rest key

/-- Python `str.lower()` (code points mapped individually). -/
def pyLower (s : String) : String := String.mk (s.data.map Char.toLower)

/-- Substring test on char lists: `needle in hay` for Python strings. -/
def listContainsSub (needle : List Char) : List Char → Bool
  | [] => needle.isEmpty
  | c :: t => needle.isPrefixOf (c :: t) || listContainsSub needle t

/-- Python `needle in hay` for strings. -/
def pyContains (hay needle : String) : Bool := listContainsSub needle.data hay.data

/-- Python `s.rstrip('/')`: drop every trailing `'/'`. -/
def pyRstripSlash (s : String) : String :=
  String.mk ((s.data.reverse.dropWhile (fun c => c == '/')).reverse)

/-- The whitespace set of Python `str.strip()` (ASCII part; the relay only
strips protocol lines, which are ASCII). -/
def isPyWs (c : Char) : Bool :=
  c == ' ' || c == '\t' || c == '\n' || c == '\r' || c == '\x0b' || c == '\x0c'

/-- Python `s.strip()`. -/
def pyStrip (s : String) : String :=
  String.mk (((s.data.dropWhile isPyWs).reverse.dropWhile isPyWs).reverse)

/-- Python `s.startswith(pre)`. -/
def pyStartsWith (s pre : String) : Bool := pre.data.isPrefixOf s.data

/-- Python `s[n:]` (drop the first `n` code points). -/
def pyDropChars (s : String) (n : Nat) : String := String.mk (s.data.drop n)

/-- Python `s[:n]` (keep the first `n` code points). -/
def pyTake (s : String) (n : Nat) : String := String.mk (s.data.take n)

/-- `is_brave_search` (mcp_pipe.py line 115): `"brave.com" in server_url.lower()`. -/
def is_brave_search (serverUrl : String) : Bool :=
  pyContains (pyLower serverUrl) "brave.com"

/-- `get_chat_endpoint` (mcp_pipe.py line 119). -/
def get_chat_endpoint (serverUrl : String) : String :=
  if is_brave_search serverUrl then "search" else "chat/completions"

/-- The fields of a stored server record that the relay reads
(`server_config` in `_handle_general_mcp`; `chat_endpoint` is stored by the
add commands but, as proved below, never read by the relay). -/
structure ServerConfig where
  url : String
  apiKey : String
  defaultModel : String
  chatEndpoint : String

/-- The slice of `mcp_payload` that influences relay control flow: its
`stream` field (line 340, mutated to `False` at line 390). The other payload
fields (messages, model, temperature, max_tokens) are forwarded verbatim and
never inspected by the relay. -/
structure Payload where
  stream : Bool

/-- One HTTP response as the relay observes it: `response.status`,
`response.json()` (`none` when it raises), the decoded lines of
`response.content`, and `response.text()`. -/
structure HttpResp where
  status : Nat
  jsonBody : Option Json
  lines : List String
  text : String

/-- Result of one `session.post`/`session.get`: a transport exception
(connection refused, timeout, ...) or a response. -/
inductive NetResult where
  | exn
  | resp (r : HttpResp)

/-- The network: what each URL answers to each payload. Each URL is queried
at most once per pass, so a pass is a pure fold over the candidate list. -/
abbrev World := String → Payload → NetResult

/-- `urls_to_try` (mcp_pipe.py lines 347-350): always exactly the two fixed
paths; the record's `chat_endpoint` is not consulted. -/
def urlsToTry (cfg : ServerConfig) : List String :=
  [pyRstripSlash cfg.url ++ "/chat/completions",
   pyRstripSlash cfg.url ++ "/v1/chat/completions"]

/-- Result of the non-streaming content extraction
(mcp_pipe.py lines 415-433): `content v` when `choices` is present and
non-empty (Python then returns `choices[0].get("message", {}).get("content",
"")`, whose raw value is `v`, defaulting to `""`); `noChoices` when `choices`
is absent or empty (the `else: continue` branch at line 433); `err` when the
extraction would raise in Python (e.g. `choices[0]` is not a dict), which the
per-URL `except` at line 444 turns into "continue to the next URL". Non-dict
documents and non-list `choices` values, which Python mostly treats as the
no-content branch, are mapped to `noChoices`; no claim exercises them. -/
inductive NSExtract where
  | content (v : Json)
  | noChoices
  | err

/-- The content extraction of the non-streaming 200 branch
(mcp_pipe.py lines 415-416 together with the `else: continue` at line 433). -/
def nsExtract (j : Json) : NSExtract :=
  match j with
  | Json.obj fields =>
    match lookupField fields "choices" with
    | some (Json.arr (c :: _)) =>
      match c with
      | Json.obj cfields =>
        match (lookupField cfields "message").getD (Json.obj []) with
        | Json.obj mfields =>
          NSExtract.content ((lookupField mfields "content").getD (Json.str ""))
        | _ => NSExtract.err
      | _ => NSExtract.err
    | _ => NSExtract.noChoices
  | _ => NSExtract.noChoices

/-- Delta extraction of the streaming loop (mcp_pipe.py lines 515-519):
`chunk["choices"][0].get("delta", {})["content"]` when it is a string;
`none` when the chunk carries no delta content or the extraction would raise
in Python (the surrounding `except` then skips the line). -/
def deltaContent (chunk : Json) : Option String :=
  match chunk with
  | Json.obj fields =>
    match lookupField fields "choices" with
    | some (Json.arr (c :: _)) =>
      match c with
      | Json.obj cfields =>
        match (lookupField cfields "delta").getD (Json.obj []) with
        | Json.obj dfields =>
          match lookupField dfields "content" with
          | some (Json.str s) => some s
          | _ => none
        | _ => none
      | _ => none
    | _ => none
  | _ => none

/-- One iteration of the streaming line loop (mcp_pipe.py lines 500-522):
decode+strip, skip empty and `data: [DONE]` lines, strip a leading
`data: `, parse, and append the delta content if any. -/
def processLine (parse : String → Option Json) (acc : String) (rawLine : String) : String :=
  let line := pyStrip rawLine
  if line == "" || line == "data: [DONE]" then acc
  else
    let line2 := if pyStartsWith line "data: " then pyDropChars line 6 else line
    match parse line2 with
    | none => acc
    | some chunk =>
      match deltaContent chunk with
      | some contentChunk => acc ++ contentChunk
      | none => acc

/-- `full_response` accumulation over the whole streaming body
(mcp_pipe.py lines 497-537). -/
def processStreamLines (parse : String → Option Json) (lines : List String) : String :=
  lines.foldl (processLine parse) ""

/-- The terminal message of `_try_streaming` when every URL failed
(mcp_pipe.py line 558). -/
def noViableStreamingMsg : String :=
  "Error: Could not connect to MCP server for streaming. The server may be unavailable or the URL may be incorrect."

/-- The terminal message of the non-streaming loop when every URL failed
(mcp_pipe.py line 459). -/
def noViableMsg : String :=
  "Error: Could not connect to MCP server. The server may be unavailable or the URL may be incorrect."

/-- The provider-error text used by both loops for a non-404 non-200 status
(mcp_pipe.py lines 438 and 542): the full response body, untruncated. -/
def pipeProviderErrorMsg (status : Nat) (errorText : String) : String :=
  "Error connecting to MCP server: " ++ toString status ++ " - " ++ errorText

/-- `_try_streaming` (mcp_pipe.py lines 474-558): iterate the candidate URLs;
a 200 answer is consumed line by line and its accumulated text returned; a
non-404 error status returns the provider-error text; a 404 or a transport
exception moves on to the next URL; an exhausted list returns
`noViableStreamingMsg`. -/
def tryStreaming (world : World) (parse : String → Option Json) (p : Payload) :
    List String → String
  | [] => noViableStreamingMsg
  | url :: rest =>
    match world url p with
    | NetResult.exn => tryStreaming world parse p rest
    | NetResult.resp r =>
      if r.status == 200 then processStreamLines parse r.lines
      else if r.status != 404 then pipeProviderErrorMsg r.status r.text
      else tryStreaming world parse p rest

/-- The non-streaming candidate loop (mcp_pipe.py lines 391-464): a 200
answer with a parsable body and non-empty `choices` returns the extracted
content; a 200 with no content or an unparsable body continues; a non-404
error status returns the provider-error text; a 404 or transport exception
continues; an exhausted list returns `noViableMsg`. The result is a `Json`
value because Python returns the raw `content` value, a string in every
ordinary response. -/
def nonStreamLoop (world : World) (parse : String → Option Json) (p : Payload) :
    List String → Json
  | [] => Json.str noViableMsg
  | url :: rest =>
    match world url p with
    | NetResult.exn => nonStreamLoop world parse p rest
    | NetResult.resp r =>
      if r.status == 200 then
        match r.jsonBody with
        | none => nonStreamLoop world parse p rest
        | some j =>
          match nsExtract j with
          | NSExtract.content v => v
          | NSExtract.noChoices => nonStreamLoop world parse p rest
          | NSExtract.err => nonStreamLoop world parse p rest
      else if r.status != 404 then Json.str (pipeProviderErrorMsg r.status r.text)
      else nonStreamLoop world parse p rest

/-- `_handle_general_mcp` after the payload is built (mcp_pipe.py lines
344-464): when the stream valve is set, first run the streaming pass with
`stream=true`; accept its result unless the returned text starts with
`"Error:"` (line 373); otherwise — and always when the valve is off — run
the non-streaming loop with the payload's `stream` forced to `false`
(line 390). -/
def handleGeneralMcp (world : World) (parse : String → Option Json)
    (cfg : ServerConfig) (streamValve : Bool) : Json :=
  let urls := urlsToTry cfg
  if streamValve then
    let streamingResult := tryStreaming world parse (Payload.mk true) urls
    if !(pyStartsWith streamingResult "Error:") then Json.str streamingResult
    else nonStreamLoop world parse (Payload.mk false) urls
  else nonStreamLoop world parse (Payload.mk false) urls

/-- One conversation message as the Brave handler reads it
(`msg.get("role")`, `msg.get("content", "")`). -/
structure Msg where
  role : String
  content : String

/-- The last-user-message scan of `_handle_brave_search`
(mcp_pipe.py lines 203-207). -/
def lastUserMessage (messages : List Msg) : String :=
  match messages.reverse.find? (fun m => m.role == "user") with
  | some m => m.content
  | none => ""

/-- The terminal validation text of `_handle_brave_search`
(mcp_pipe.py line 210). -/
def braveNoQueryMsg : String :=
  "No search query found. Please ask a question or provide a search term."

/-- What the Brave handler decides to do before any response is read:
either return the validation text without touching the network, or issue the
single `GET {base}/search` with the query and `count=5`. -/
inductive BraveAction where
  | noQuery (text : String)
  | httpGet (url : String) (query : String) (count : Nat)

/-- `_handle_brave_search` up to the point where the network is first used
(mcp_pipe.py lines 197-230 and 250-254): the validation check precedes the
session and request construction. -/
def braveSearchAction (messages : List Msg) (serverUrl : String) : BraveAction :=
  let userMessage := lastUserMessage messages
  if userMessage == "" then BraveAction.noQuery braveNoQueryMsg
  else BraveAction.httpGet (pyRstripSlash serverUrl ++ "/search") userMessage 5

/-- The error text `MCPClient` raises on a non-200 status
(mcp_client.py lines 64, 98, 165, 185): `f"HTTP {status}: {error_text[:100]}"`,
the body truncated to 100 characters. -/
def mcpClientHttpError (status : Nat) (errorText : String) : String :=
  "HTTP " ++ toString status ++ ": " ++ pyTake errorText 100

/-- Follows the spec's words (§4.1 `resolveCandidates`): strip the trailing
slash; a special-provider base yields the single `/search` URL; otherwise the
two fixed paths, with `{base}/{hint}` prepended when a hint is supplied and
differs from both. Stated only to compare with the source's `urlsToTry`. -/
def resolveCandidatesSpec (baseUrl : String) (hint : Option String) : List String :=
  let base := pyRstripSlash baseUrl
  if is_brave_search baseUrl then [base ++ "/search"]
  else
    let fixed := [base ++ "/chat/completions", base ++ "/v1/chat/completions"]
    match hint with
    | none => fixed
    | some h =>
      if h == "chat/completions" || h == "v1/chat/completions" then fixed
      else (base ++ "/" ++ h) :: fixed

/-- Follows the spec's words (§4.4, streaming generic): the delta appended
for a parsed chunk is `choices[0].delta.content` when it exists as a string.
Stated only to compare with the source's `deltaContent`. -/
def deltaContentSpec (chunk : Json) : Option String :=
  match chunk with
  | Json.obj fields =>
    match lookupField fields "choices" with
    | some (Json.arr (c :: _)) =>
      match c with
      | Json.obj cfields =>
        match lookupField cfields "delta" with
        | some (Json.obj dfields) =>
          match lookupField dfields "content" with
          | some (Json.str s) => some s
          | _ => none
        | _ => none
      | _ => none
    | _ => none
  | _ => none

/-- Follows the spec's words (§4.4, streaming generic), one line: trim; skip
empty lines and `data: [DONE]`; strip a leading `data: `; parse, silently
skipping failures; append the delta content in arrival order. -/
def specLine (parse : String → Option Json) (acc : String) (rawLine : String) : String :=
  let line := pyStrip rawLine
  if line == "" || line == "data: [DONE]" then acc
  else
    let line2 := if pyStartsWith line "data: " then pyDropChars line 6 else line
    match parse line2 with
    | none => acc
    | some chunk =>
      match deltaContentSpec chunk with
      | some contentChunk => acc ++ contentChunk
      | none => acc

/-- Follows the spec's words (§4.4, streaming generic): the outcome is the
concatenated buffer over all body lines. -/
def streamNormalizeSpec (parse : String → Option Json) (lines : List String) : String :=
  lines.foldl (specLine parse) ""

/-- A streaming attempt that the streaming loop walks past: a transport
exception or a 404 status (mcp_pipe.py lines 540, 543). -/
def streamAttemptFails : NetResult → Bool
  | NetResult.exn => true
  | NetResult.resp r => r.status == 404

lemma isPrefixOf_self_append (l t : List Char) : l.isPrefixOf (l ++ t) = true := by
  induction l with
  | nil => simp [List.isPrefixOf]
  | cons c cs ih => simp [List.isPrefixOf, ih]

lemma pyStartsWith_append (a b : String) : pyStartsWith (a ++ b) a = true := by
  simp [pyStartsWith, String.data_append, isPrefixOf_self_append]

lemma foldl_congr_fun {α β : Type} {f g : β → α → β} (h : ∀ b a, f b a = g b a) :
    ∀ (l : List α) (b : β), l.foldl f b = l.foldl g b := by
  intro l
  induction l with
  | nil => intro b; rfl
  | cons a t ih =>
    intro b
    simp only [List.foldl]
    rw [h]
    exact ih _

lemma deltaContent_eq_spec (chunk : Json) : deltaContent chunk = deltaContentSpec chunk := by
  cases chunk with
  | null => rfl
  | bool b => rfl
  | num n => rfl
  | str s => rfl
  | arr es => rfl
  | obj fields =>
    cases hc : lookupField fields "choices" with
    | none => simp [deltaContent, deltaContentSpec, hc]
    | some v =>
      cases v with
      | null => simp [deltaContent, deltaContentSpec, hc]
      | bool b => simp [deltaContent, deltaContentSpec, hc]
      | num n => simp [deltaContent, deltaContentSpec, hc]
      | str s => simp [deltaContent, deltaContentSpec, hc]
      | obj fs => simp [deltaContent, deltaContentSpec, hc]
      | arr elems =>
        cases elems with
        | nil => simp [deltaContent, deltaContentSpec, hc]
        | cons c rest =>
          cases c with
          | null => simp [deltaContent, deltaContentSpec, hc]
          | bool b => simp [deltaContent, deltaContentSpec, hc]
          | num n => simp [deltaContent, deltaContentSpec, hc]
          | str s => simp [deltaContent, deltaContentSpec, hc]
          | arr es => simp [deltaContent, deltaContentSpec, hc]
          | obj cfields =>
            cases hd : lookupField cfields "delta" with
            | none => simp [deltaContent, deltaContentSpec, hc, hd, lookupField]
            | some d => cases d <;> simp [deltaContent, deltaContentSpec, hc, hd]

lemma processLine_eq_specLine (parse : String → Option Json) (acc rawLine : String) :
    processLine parse acc rawLine = specLine parse acc rawLine := by
  simp only [processLine, specLine, deltaContent_eq_spec]

lemma tryStreaming_exhaust (world : World) (parse : String → Option Json) (p : Payload) :
    ∀ urls : List String, (∀ url ∈ urls, streamAttemptFails (world url p) = true) →
      tryStreaming world parse p urls = noViableStreamingMsg := by
  intro urls
  induction urls with
  | nil => intro _; rfl
  | cons url rest ih =>
    intro h
    have hu := h url (List.mem_cons_self url rest)
    have hr : ∀ u ∈ rest, streamAttemptFails (world u p) = true :=
      fun u hm => h u (List.mem_cons_of_mem url hm)
    cases hw : world url p with
    | exn => simp [tryStreaming, hw, ih hr]
    | resp r =>
      rw [hw] at hu
      have h404 : r.status = 404 := by simpa [streamAttemptFails] using hu
      simp [tryStreaming, hw, h404, ih hr]

/-- C1: in the non-streaming relay loop, when the first candidate URL
answers 404 and the second answers 200 with a body whose
`choices[0].message.content` is the string `s`, the loop's outcome is
exactly `Json.str s` — the second candidate's content. Because the outcome
equals `Json.str s` for an arbitrary `s`, and the theorem holds for every
`world` regardless of the 404 response's body, the first candidate's 404
failure does not appear in the returned outcome. -/
theorem claim_C1_fallback_success (world : World) (parse : String → Option Json)
    (cfg : ServerConfig) (p : Payload) (r1 r2 : HttpResp) (j : Json) (s : String)
    (h1 : world (pyRstripSlash cfg.url ++ "/chat/completions") p = NetResult.resp r1)
    (h1s : r1.status = 404)
    (h2 : world (pyRstripSlash cfg.url ++ "/v1/chat/completions") p = NetResult.resp r2)
    (h2s : r2.status = 200)
    (hb : r2.jsonBody = some j)
    (hc : nsExtract j = NSExtract.content (Json.str s)) :
    nonStreamLoop world parse p (urlsToTry cfg) = Json.str s := by
  simp [urlsToTry, nonStreamLoop, h1, h1s, h2, h2s, hb, hc]

def c1Body : Json :=
  Json.obj [("choices", Json.arr [Json.obj
    [("message", Json.obj [("content", Json.str "hello")])]])]

def c1World : World := fun url _ =>
  if url == "http://s/chat/completions" then NetResult.resp ⟨404, none, [], "not found"⟩
  else NetResult.resp ⟨200, some c1Body, [], ""⟩

theorem claim_C1_fallback_success_witness :
    nonStreamLoop c1World (fun _ => none) (Payload.mk false)
      (urlsToTry ⟨"http://s", "", "", "chat/completions"⟩) = Json.str "hello" :=
  claim_C1_fallback_success c1World (fun _ => none)
    ⟨"http://s", "", "", "chat/completions"⟩ (Payload.mk false)
    ⟨404, none, [], "not found"⟩ ⟨200, some c1Body, [], ""⟩ c1Body "hello"
    rfl rfl rfl rfl rfl rfl

lemma isPrefixOf_append_of_le (p l t : List Char) (h : p.length ≤ l.length) :
    p.isPrefixOf (l ++ t) = p.isPrefixOf l := by
  induction p generalizing l with
  | nil => simp [List.isPrefixOf]
  | cons a as ih =>
    cases l with
    | nil => simp at h
    | cons b bs =>
      simp only [List.cons_append, List.isPrefixOf, List.append_eq]
      rw [ih bs (by simpa using h)]

lemma pyStartsWith_append_left (s t pre : String) (h : pre.data.length ≤ s.data.length) :
    pyStartsWith (s ++ t) pre = pyStartsWith s pre := by
  unfold pyStartsWith
  rw [String.data_append]
  exact isPrefixOf_append_of_le _ _ _ h

/-- The provider-error text begins with `"Error connecting"`, not with
`"Error:"`, so the `startswith("Error:")` test at mcp_pipe.py line 373 does
not classify it as a failed streaming pass. -/
lemma providerErrorMsg_not_error_colon (status : Nat) (errorText : String) :
    pyStartsWith (pipeProviderErrorMsg status errorText) "Error:" = false := by
  have h1 : pipeProviderErrorMsg status errorText
      = "Error connecting to MCP server: " ++ (toString status ++ " - " ++ errorText) := by
    simp [pipeProviderErrorMsg, String.append_assoc]
  rw [h1, pyStartsWith_append_left _ _ _ (by decide)]
  decide

/-- C2: a candidate answering a non-404, non-200 status is terminal. In a
non-streaming invocation the relay returns the provider-error text carrying
that status and the full response body at once; in a streaming invocation
the streaming pass returns the same text, which does not start with
`"Error:"` (it begins `"Error connecting"`), so `_handle_general_mcp`
accepts it immediately — there is no non-streaming retry. In every conjunct
`world` is constrained only on the FIRST candidate URL, so the later
candidate is never attempted: its answer cannot influence the outcome. -/
theorem claim_C2_provider_error_terminal (world : World) (parse : String → Option Json)
    (cfg : ServerConfig) (r rs : HttpResp)
    (hw : world (pyRstripSlash cfg.url ++ "/chat/completions") (Payload.mk false)
            = NetResult.resp r)
    (h200 : r.status ≠ 200) (h404 : r.status ≠ 404)
    (hws : world (pyRstripSlash cfg.url ++ "/chat/completions") (Payload.mk true)
            = NetResult.resp rs)
    (hs200 : rs.status ≠ 200) (hs404 : rs.status ≠ 404) :
    handleGeneralMcp world parse cfg false = Json.str (pipeProviderErrorMsg r.status r.text)
    ∧ handleGeneralMcp world parse cfg true = Json.str (pipeProviderErrorMsg rs.status rs.text)
    ∧ nonStreamLoop world parse (Payload.mk false) (urlsToTry cfg)
        = Json.str (pipeProviderErrorMsg r.status r.text)
    ∧ tryStreaming world parse (Payload.mk true) (urlsToTry cfg)
        = pipeProviderErrorMsg rs.status rs.text := by
  have e1 : (r.status == 200) = false := beq_eq_false_iff_ne.mpr h200
  have e2 : (r.status != 404) = true := bne_iff_ne.mpr h404
  have e3 : (rs.status == 200) = false := beq_eq_false_iff_ne.mpr hs200
  have e4 : (rs.status != 404) = true := bne_iff_ne.mpr hs404
  have hts : tryStreaming world parse (Payload.mk true) (urlsToTry cfg)
      = pipeProviderErrorMsg rs.status rs.text := by
    simp [urlsToTry, tryStreaming, hws, e3, e4]
  have hns : nonStreamLoop world parse (Payload.mk false) (urlsToTry cfg)
      = Json.str (pipeProviderErrorMsg r.status r.text) := by
    simp [urlsToTry, nonStreamLoop, hw, e1, e2]
  refine ⟨?_, ?_, hns, hts⟩
  · simpa [handleGeneralMcp] using hns
  · simp [handleGeneralMcp, hts, providerErrorMsg_not_error_colon]

def c2wWorld : World := fun _ _ => NetResult.resp ⟨500, none, [], "boom"⟩

theorem claim_C2_provider_error_terminal_witness :
    handleGeneralMcp c2wWorld (fun _ => none)
      ⟨"http://s", "", "", "chat/completions"⟩ false
      = Json.str (pipeProviderErrorMsg 500 "boom")
    ∧ handleGeneralMcp c2wWorld (fun _ => none)
        ⟨"http://s", "", "", "chat/completions"⟩ true
      = Json.str (pipeProviderErrorMsg 500 "boom")
    ∧ nonStreamLoop c2wWorld (fun _ => none) (Payload.mk false)
        (urlsToTry ⟨"http://s", "", "", "chat/completions"⟩)
      = Json.str (pipeProviderErrorMsg 500 "boom")
    ∧ tryStreaming c2wWorld (fun _ => none) (Payload.mk true)
        (urlsToTry ⟨"http://s", "", "", "chat/completions"⟩)
      = pipeProviderErrorMsg 500 "boom" :=
  claim_C2_provider_error_terminal c2wWorld (fun _ => none)
    ⟨"http://s", "", "", "chat/completions"⟩
    ⟨500, none, [], "boom"⟩ ⟨500, none, [], "boom"⟩
    rfl (by decide) (by decide) rfl (by decide) (by decide)

def c3EmptyChoicesBody : Json := Json.obj [("choices", Json.arr [])]

def c3SecondBody : Json :=
  Json.obj [("choices", Json.arr [Json.obj
    [("message", Json.obj [("content", Json.str "from2")])]])]

/-- A network where the first candidate answers 200 with an empty `choices`
array and the second answers 200 with content `"from2"`. -/
def c3World : World := fun url _ =>
  if url == "http://s/chat/completions" then
    NetResult.resp ⟨200, some c3EmptyChoicesBody, [], ""⟩
  else NetResult.resp ⟨200, some c3SecondBody, [], ""⟩

/-- C3 counterexample: the first candidate answers 200 with an empty
`choices` array, and the relay's outcome is the SECOND candidate's content
`"from2"` — the empty-choices response made the loop continue to the next
candidate (the `continue` at mcp_pipe.py line 433), not produce a Success
outcome with a placeholder string. No placeholder string exists in the code. -/
theorem claim_C3_counterexample :
    nonStreamLoop c3World (fun _ => none) (Payload.mk false)
      (urlsToTry ⟨"http://s", "", "", "chat/completions"⟩) = Json.str "from2" :=
  rfl

/-- C3 amended: a 200 response whose `choices` is absent or empty is
non-terminal — the non-streaming loop skips to the next candidate; and when
the candidate list is exhausted the outcome is the could-not-connect error
text, not a Success placeholder. -/
theorem claim_C3_empty_choices_continues (world : World) (parse : String → Option Json)
    (p : Payload) (url : String) (rest : List String) (r : HttpResp) (j : Json)
    (hw : world url p = NetResult.resp r) (hs : r.status = 200)
    (hb : r.jsonBody = some j) (hx : nsExtract j = NSExtract.noChoices) :
    nonStreamLoop world parse p (url :: rest) = nonStreamLoop world parse p rest
    ∧ nonStreamLoop world parse p [] = Json.str noViableMsg := by
  constructor
  · simp [nonStreamLoop, hw, hs, hb, hx]
  · rfl

theorem claim_C3_empty_choices_continues_witness :
    nonStreamLoop c3World (fun _ => none) (Payload.mk false)
      ("http://s/chat/completions" :: ["http://s/v1/chat/completions"])
      = nonStreamLoop c3World (fun _ => none) (Payload.mk false)
          ["http://s/v1/chat/completions"]
    ∧ nonStreamLoop c3World (fun _ => none) (Payload.mk false) [] = Json.str noViableMsg :=
  claim_C3_empty_choices_continues c3World (fun _ => none) (Payload.mk false)
    "http://s/chat/completions" ["http://s/v1/chat/completions"]
    ⟨200, some c3EmptyChoicesBody, [], ""⟩ c3EmptyChoicesBody
    rfl rfl rfl rfl

def demoChunkA : Json :=
  Json.obj [("choices", Json.arr [Json.obj
    [("delta", Json.obj [("content", Json.str "He")])]])]

def demoChunkB : Json :=
  Json.obj [("choices", Json.arr [Json.obj
    [("delta", Json.obj [("content", Json.str "llo")])]])]

def demoParse : String → Option Json := fun s =>
  if s == "chunkA" then some demoChunkA
  else if s == "chunkB" then some demoChunkB
  else none

def demoLines : List String := ["data: chunkA", "data: chunkB", "data: [DONE]"]

/-- C4: the streaming normalization of `_try_streaming` equals the spec's
reference normalizer: per line trim, skip empty and `data: [DONE]` lines,
strip a leading `data: `, parse one JSON object silently skipping failures,
and append `choices[0].delta.content` (when present) in arrival order —
for every parse function and every line sequence. The second conjunct is
the spec's worked example: deltas `"He"` then `"llo"` yield `"Hello"`. -/
theorem claim_C4_stream_normalization :
    (∀ (parse : String → Option Json) (lines : List String),
        processStreamLines parse lines = streamNormalizeSpec parse lines)
    ∧ processStreamLines demoParse demoLines = "Hello" := by
  constructor
  · intro parse lines
    exact foldl_congr_fun (processLine_eq_specLine parse) lines ""
  · rfl

/-- C5: when streaming is enabled and every candidate's streaming attempt
fails non-terminally (404 or transport exception), `_handle_general_mcp`
falls through to the non-streaming loop over the same candidate list with
the payload's `stream` field forced to `false`, and the relay's outcome is
exactly that non-streaming pass's outcome. -/
theorem claim_C5_stream_fallback (world : World) (parse : String → Option Json)
    (cfg : ServerConfig)
    (hfail : ∀ url ∈ urlsToTry cfg,
        streamAttemptFails (world url (Payload.mk true)) = true) :
    handleGeneralMcp world parse cfg true
      = nonStreamLoop world parse (Payload.mk false) (urlsToTry cfg) := by
  have ht := tryStreaming_exhaust world parse (Payload.mk true) (urlsToTry cfg) hfail
  have hsw : pyStartsWith noViableStreamingMsg "Error:" = true := by decide
  simp [handleGeneralMcp, ht, hsw]

def c5Body : Json :=
  Json.obj [("choices", Json.arr [Json.obj
    [("message", Json.obj [("content", Json.str "after-fallback")])]])]

def c5World : World := fun _ p =>
  if p.stream then NetResult.resp ⟨404, none, [], ""⟩
  else NetResult.resp ⟨200, some c5Body, [], ""⟩

theorem claim_C5_stream_fallback_witness :
    (∀ url ∈ urlsToTry ⟨"http://s", "", "", "chat/completions"⟩,
        streamAttemptFails (c5World url (Payload.mk true)) = true)
    ∧ handleGeneralMcp c5World (fun _ => none)
        ⟨"http://s", "", "", "chat/completions"⟩ true
      = nonStreamLoop c5World (fun _ => none) (Payload.mk false)
          (urlsToTry ⟨"http://s", "", "", "chat/completions"⟩) :=
  ⟨by decide,
   claim_C5_stream_fallback c5World (fun _ => none)
     ⟨"http://s", "", "", "chat/completions"⟩ (by decide)⟩

def c6Cfg : ServerConfig := ⟨"http://example.com", "", "", "custom"⟩

/-- C6 counterexample: the record carries the hint `"custom"`, which differs
from both fixed paths, yet `urls_to_try` starts with
`{base}/chat/completions` and never contains `{base}/custom` — the relay
builds the candidate list from the base URL alone (mcp_pipe.py lines
347-350) and ignores the stored `chat_endpoint` hint, so the claimed
hint-first ordering is false; the code's list also differs from the spec's
`resolveCandidates` at this input. -/
theorem claim_C6_counterexample :
    c6Cfg.chatEndpoint = "custom"
    ∧ c6Cfg.chatEndpoint ≠ "chat/completions"
    ∧ c6Cfg.chatEndpoint ≠ "v1/chat/completions"
    ∧ (urlsToTry c6Cfg).head? = some "http://example.com/chat/completions"
    ∧ "http://example.com/custom" ∉ urlsToTry c6Cfg
    ∧ urlsToTry c6Cfg ≠ resolveCandidatesSpec c6Cfg.url (some c6Cfg.chatEndpoint) := by
  decide

/-- C6 amended: for every server record whose base URL lacks the
special-provider marker, the candidate list is exactly 2 URLs — the
trailing-slash-stripped base followed by `/chat/completions` and then
`/v1/chat/completions` — each extending the stripped base; the record's
endpoint hint is never consulted, so no hint-first candidate exists. -/
theorem claim_C6_candidates (cfg : ServerConfig)
    (_hb : is_brave_search cfg.url = false) :
    urlsToTry cfg = [pyRstripSlash cfg.url ++ "/chat/completions",
                     pyRstripSlash cfg.url ++ "/v1/chat/completions"]
    ∧ (urlsToTry cfg).length = 2
    ∧ ∀ u ∈ urlsToTry cfg, pyStartsWith u (pyRstripSlash cfg.url) = true := by
  refine ⟨rfl, rfl, ?_⟩
  intro u hu
  simp only [urlsToTry, List.mem_cons, List.not_mem_nil, or_false] at hu
  rcases hu with rfl | rfl
  · exact pyStartsWith_append _ _
  · exact pyStartsWith_append _ _

theorem claim_C6_candidates_witness :
    is_brave_search c6Cfg.url = false
    ∧ (urlsToTry c6Cfg = [pyRstripSlash c6Cfg.url ++ "/chat/completions",
          pyRstripSlash c6Cfg.url ++ "/v1/chat/completions"]
       ∧ (urlsToTry c6Cfg).length = 2
       ∧ ∀ u ∈ urlsToTry c6Cfg, pyStartsWith u (pyRstripSlash c6Cfg.url) = true) :=
  ⟨by decide, claim_C6_candidates c6Cfg (by decide)⟩

/-- C7: when no message of the conversation has role `"user"`, the Brave
handler's decision is the terminal no-query validation text — the
`BraveAction.noQuery` constructor, which precedes the construction of the
HTTP session and request in `_handle_brave_search`, so no network call is
made. -/
theorem claim_C7_brave_no_user (messages : List Msg) (serverUrl : String)
    (h : ∀ m ∈ messages, m.role ≠ "user") :
    braveSearchAction messages serverUrl = BraveAction.noQuery braveNoQueryMsg := by
  have hfind : messages.reverse.find? (fun m => m.role == "user") = none := by
    rw [List.find?_eq_none]
    intro m hm
    simp only [beq_iff_eq]
    exact h m (List.mem_reverse.mp hm)
  simp [braveSearchAction, lastUserMessage, hfind]

theorem claim_C7_brave_no_user_witness :
    (∀ m ∈ [Msg.mk "assistant" "hi", Msg.mk "system" "be brief"], m.role ≠ "user")
    ∧ braveSearchAction [Msg.mk "assistant" "hi", Msg.mk "system" "be brief"]
        "https://mcp.brave.com/v1"
      = BraveAction.noQuery braveNoQueryMsg :=
  ⟨by decide, claim_C7_brave_no_user _ _ (by decide)⟩

def longBody : String := String.mk (List.replicate 200 'a')

def c8World : World := fun _ _ => NetResult.resp ⟨500, none, [], longBody⟩

set_option maxRecDepth 8192 in
/-- C8 counterexample: a candidate answers 500 with a 200-character body and
the non-streaming loop surfaces the provider error with the FULL body — the
outcome's text ends in all 200 characters, so the excerpt surfaced by the
Pipe relay is not truncated to roughly 100 characters (no truncation exists
at mcp_pipe.py lines 437-438; only `MCPClient` truncates). -/
theorem claim_C8_counterexample :
    nonStreamLoop c8World (fun _ => none) (Payload.mk false)
      (urlsToTry ⟨"http://s", "", "", "chat/completions"⟩)
      = Json.str (pipeProviderErrorMsg 500 longBody)
    ∧ pipeProviderErrorMsg 500 longBody
        = "Error connecting to MCP server: 500 - " ++ longBody
    ∧ longBody.length = 200 := by
  refine ⟨rfl, by decide, by decide⟩

/-- C8 amended: the two error renderings differ — `MCPClient` raises
`HTTP {status}: {body}` with the body truncated to at most 100 characters
(`error_text[:100]`), while the Pipe relay's provider-error text embeds the
response body untruncated. -/
theorem claim_C8_truncation (status : Nat) (t : String) :
    mcpClientHttpError status t = "HTTP " ++ toString status ++ ": " ++ pyTake t 100
    ∧ (pyTake t 100).length ≤ 100
    ∧ pipeProviderErrorMsg status t
        = "Error connecting to MCP server: " ++ toString status ++ " - " ++ t := by
  refine ⟨rfl, ?_, rfl⟩
  show (t.data.take 100).length ≤ 100
  rw [List.length_take]
  exact Nat.min_le_left _ _

/-- C9: `_handle_general_mcp` accepts the streaming pass's result exactly
when the returned text does not start with `"Error:"` (line 373); hence a
streaming candidate answering 200 whose accumulated content itself begins
with `"Error:"` has its result discarded, and the relay's outcome is the
non-streaming retry pass's outcome. -/
theorem claim_C9_error_text_discards_stream (world : World)
    (parse : String → Option Json) (cfg : ServerConfig) (r : HttpResp)
    (hw : world (pyRstripSlash cfg.url ++ "/chat/completions") (Payload.mk true)
            = NetResult.resp r)
    (hs : r.status = 200)
    (he : pyStartsWith (processStreamLines parse r.lines) "Error:" = true) :
    handleGeneralMcp world parse cfg true
      = nonStreamLoop world parse (Payload.mk false) (urlsToTry cfg) := by
  have ht : tryStreaming world parse (Payload.mk true) (urlsToTry cfg)
      = processStreamLines parse r.lines := by
    simp [urlsToTry, tryStreaming, hw, hs]
  simp [handleGeneralMcp, ht, he]

def c9Chunk : Json :=
  Json.obj [("choices", Json.arr [Json.obj
    [("delta", Json.obj [("content", Json.str "Error: fake")])]])]

def c9Parse : String → Option Json := fun s =>
  if s == "c9" then some c9Chunk else none

def c9World : World := fun _ p =>
  if p.stream then NetResult.resp ⟨200, none, ["data: c9"], ""⟩
  else NetResult.resp ⟨404, none, [], ""⟩

theorem claim_C9_error_text_discards_stream_witness :
    handleGeneralMcp c9World c9Parse ⟨"http://s", "", "", "chat/completions"⟩ true
      = nonStreamLoop c9World c9Parse (Payload.mk false)
          (urlsToTry ⟨"http://s", "", "", "chat/completions"⟩) :=
  claim_C9_error_text_discards_stream c9World c9Parse
    ⟨"http://s", "", "", "chat/completions"⟩ ⟨200, none, ["data: c9"], ""⟩
    rfl rfl (by decide)

/-- C10: a streaming candidate answering 200 whose lines yield no delta
content accumulates the empty string, which does not start with `"Error:"`,
so the relay returns the empty string as the Success outcome; the theorem
holds for every `world`, in particular regardless of what the non-streaming
requests would answer, so no non-streaming fallback takes place. -/
theorem claim_C10_empty_stream_success (world : World)
    (parse : String → Option Json) (cfg : ServerConfig) (r : HttpResp)
    (hw : world (pyRstripSlash cfg.url ++ "/chat/completions") (Payload.mk true)
            = NetResult.resp r)
    (hs : r.status = 200)
    (he : processStreamLines parse r.lines = "") :
    handleGeneralMcp world parse cfg true = Json.str "" := by
  have ht : tryStreaming world parse (Payload.mk true) (urlsToTry cfg)
      = processStreamLines parse r.lines := by
    simp [urlsToTry, tryStreaming, hw, hs]
  have hsw : pyStartsWith "" "Error:" = false := by decide
  simp [handleGeneralMcp, ht, he, hsw]

def c10World : World := fun _ p =>
  if p.stream then NetResult.resp ⟨200, none, ["", "data: [DONE]", "notjson"], ""⟩
  else NetResult.resp ⟨500, none, [], "never surfaced"⟩

theorem claim_C10_empty_stream_success_witness :
    handleGeneralMcp c10World (fun _ => none)
      ⟨"http://s", "", "", "chat/completions"⟩ true = Json.str "" :=
  claim_C10_empty_stream_success c10World (fun _ => none)
    ⟨"http://s", "", "", "chat/completions"⟩
    ⟨200, none, ["", "data: [DONE]", "notjson"], ""⟩
    rfl rfl (by decide)

end McpPipe
